import Mathlib

/-!
Verification of the mtuq grid-search engine (`mtuq/grid_search.py`) and the
waveform processing pipeline (`mtuq/process_data.py`) against their
natural-language specification.  Python functions are shallowly embedded as
Lean definitions: numpy column matrices become lists of columns, Python floats
become rationals, mutable caches become functions `String → Option _`, and
exceptions become `Except` values.
-/

namespace Mtuq

/-- Embeds `mtuq.util.ProgressCallback(start=..., stop=..., percent=...)`,
the progress reporter handed to the misfit function once per origin. -/
structure ProgressCallback where
  start : Nat
  stop : Nat
  percent : Nat
deriving DecidableEq

/-- Loop body of `_grid_search_serial`: `for _i, origin in enumerate(origins)`
builds one misfit column per origin, with the progress reporter carrying the
global start index `_i*nj` and stop index `ni*nj`.  The index argument is the
running value of `_i`. -/
def gridSearchSerialFrom {Data G Origin Src α : Type}
    (select : G → Origin → G) (data : Data) (greens : G)
    (misfit : Data → G → List Src → ProgressCallback → List α)
    (sources : List Src) (ni nj msg_interval : Nat) :
    Nat → List Origin → List (List α)
  | _, [] => []
  | i, origin :: rest =>
      misfit data (select greens origin) sources
          { start := i * nj, stop := ni * nj, percent := msg_interval } ::
        gridSearchSerialFrom select data greens misfit sources ni nj msg_interval
          (i + 1) rest

/-- Embeds `_grid_search_serial(data, greens, misfit, origins, sources,
msg_interval)`.  The numpy result of `np.concatenate(results, axis=1)`, where
each `results` entry is one `(len(sources), 1)` column, is represented as the
list of its columns.  `greens.select(origin)` is the injected `select`
argument. -/
def grid_search_serial {Data G Origin Src α : Type}
    (select : G → Origin → G) (data : Data) (greens : G)
    (misfit : Data → G → List Src → ProgressCallback → List α)
    (origins : List Origin) (sources : List Src)
    (msg_interval : Nat) : List (List α) :=
  gridSearchSerialFrom select data greens misfit sources
    origins.length sources.length msg_interval 0 origins

/-- Embeds `np.concatenate` along axis 0 (the source axis) of a list of
matrices given in column representation: corresponding columns are
appended. -/
def npConcat {α : Type} : List (List (List α)) → List (List α)
  | [] => []
  | [m] => m
  | m :: rest => List.zipWith (fun c d => c ++ d) m (npConcat rest)

/-- State of an active MPI runtime as observed by one process: its rank, the
communicator size, and the `Grid.partition` operation applied at rank 0. -/
structure MpiState (Src : Type) where
  rank : Nat
  nproc : Nat
  numParts : List Src → Nat → List (List Src)

/-- Embeds `grid_search(data, greens, misfit, origins, sources, msg_interval,
allgather)`.  `_is_mpi_env()` is modelled by the presence of an `MpiState`.
In the MPI branch each rank receives its partition slice from `comm.scatter`,
silences progress messages unless it is rank 0, and `comm.allgather` is
modelled by replaying every rank's deterministic serial computation in rank
order. -/
def grid_search {Data G Origin Src α : Type}
    (mpi : Option (MpiState Src))
    (select : G → Origin → G) (data : Data) (greens : G)
    (misfit : Data → G → List Src → ProgressCallback → List α)
    (origins : List Origin) (sources : List Src)
    (msg_interval : Nat) (allgather : Bool) : List (List α) :=
  match mpi with
  | none =>
      grid_search_serial select data greens misfit origins sources msg_interval
  | some st =>
      let parts := st.numParts sources st.nproc
      let mySources := parts.getD st.rank []
      let myMsg := if st.rank = 0 then msg_interval else 0
      let results :=
        grid_search_serial select data greens misfit origins mySources myMsg
      if allgather then
        npConcat ((List.range st.nproc).map fun r =>
          grid_search_serial select data greens misfit origins (parts.getD r [])
            (if r = 0 then msg_interval else 0))
      else results

/-- Shape of a numpy matrix in column representation: (rows, columns). -/
def matShape {α : Type} (m : List (List α)) : Nat × Nat :=
  ((m.headD []).length, m.length)

/-! ## Embedding of `mtuq/process_data.py` (`ProcessData`)

Floats are modelled by rationals, one seismic trace by its channel code,
sample array and optional weight attribute, and the per-instance pick and
window caches by functions `String → Option _` keyed by station identifier.
Python exceptions raised by `__init__` and `__call__` become `Except`
results. -/

/-- Recognized `filter_type` values (`None` is represented by `Option`). -/
inductive FilterType
  | Bandpass
  | Lowpass
  | Highpass
deriving DecidableEq

/-- Recognized `pick_type` values (`None` is represented by `Option`). -/
inductive PickType
  | from_taup_model
  | from_fk_metadata
  | from_sac_metadata
  | from_cap_weight_file
  | from_pick_file
deriving DecidableEq

/-- Recognized `window_type` values (`None` is represented by `Option`). -/
inductive WindowType
  | cap_bw
  | cap_sw
deriving DecidableEq

/-- Recognized `weight_type` values (`None` is represented by `Option`). -/
inductive WeightType
  | cap_bw
  | cap_sw
deriving DecidableEq

/-- Exception kinds that `ProcessData.__init__` can raise. -/
inductive InitError
  | valueError
  | assertionError
  | exceptionError
  | notImplementedError
  | keyError
deriving DecidableEq

/-- Exception kinds that `ProcessData.__call__` can raise in the embedded
parts. -/
inductive CallError
  | notImplementedError
  | attributeError
  | keyError
deriving DecidableEq

/-- The `**parameters` keyword dictionary of `ProcessData.__init__`, with one
optional field per key the source reads.  The field `scaling_power_spaced`
stands for the key `"scaling power"` (with a space), which the source tests
for and which is distinct from the `scaling_power` keyword. -/
structure Params where
  period_min : Option ℚ
  period_max : Option ℚ
  freq_min : Option ℚ
  freq_max : Option ℚ
  period : Option ℚ
  freq : Option ℚ
  taup_model : Option String
  fk_database : Option String
  pick_file : Option String
  window_length : Option ℚ
  padding_length : Option ℚ
  cap_weight_file : Option String
  scaling_power : Option ℚ
  scaling_distance : Option ℚ
  scaling_power_spaced : Option ℚ

/-- A parameter dictionary with no keys supplied. -/
def emptyParams : Params :=
  ⟨none, none, none, none, none, none, none, none, none, none, none, none,
    none, none, none⟩

/-- Filter-parameter validation block of `ProcessData.__init__` (the
`check filter parameters` section).  Returns the `(freq_min, freq_max, freq)`
attributes the block stores on `self`.  The `assert parameters['freq_max'] <
np.inf` clause is vacuous in the rational model. -/
def checkFilter (filter_type : Option FilterType) (p : Params) :
    Except InitError (Option ℚ × Option ℚ × Option ℚ) :=
  match filter_type with
  | none =>
      -- warn('No filter_type selected.') has no effect on the result
      .ok (none, none, none)
  | some FilterType.Bandpass => do
      let p ←
        if p.period_min.isSome && p.period_max.isSome then do
          if p.freq_min.isSome then throw InitError.assertionError
          if p.freq_max.isSome then throw InitError.assertionError
          pure { p with freq_min := p.period_max.map fun x => x⁻¹,
                        freq_max := p.period_min.map fun x => x⁻¹ }
        else
          pure p
      let some fmin := p.freq_min | throw InitError.valueError
      let some fmax := p.freq_max | throw InitError.valueError
      if ¬ (0 < fmin) then throw InitError.assertionError
      if ¬ (fmin < fmax) then throw InitError.assertionError
      pure (some fmin, some fmax, none)
  | some FilterType.Lowpass => do
      let p ←
        if p.period.isSome then do
          if p.freq.isSome then throw InitError.assertionError
          pure { p with freq := p.period.map fun x => x⁻¹ }
        else
          pure p
      let some f := p.freq | throw InitError.valueError
      if ¬ (0 < f) then throw InitError.assertionError
      pure (none, none, some f)
  | some FilterType.Highpass => do
      let p ←
        if p.period.isSome then do
          if p.freq.isSome then throw InitError.assertionError
          pure { p with freq := p.period.map fun x => x⁻¹ }
        else
          pure p
      let some f := p.freq | throw InitError.valueError
      if ¬ (0 ≤ f) then throw InitError.assertionError
      pure (none, none, some f)

/-- Pick-parameter validation block of `ProcessData.__init__`.  Returns the
`(taup_model, fk_database, pick_file)` attributes.  `pick_type=None` raises a
bare `Exception`; `from_cap_weight_file` raises `NotImplementedError`
already here, at construction time. -/
def checkPick (pick_type : Option PickType) (p : Params)
    (existsFile : String → Bool) :
    Except InitError (Option String × Option String × Option String) :=
  match pick_type with
  | none => .error InitError.exceptionError
  | some PickType.from_taup_model => do
      let some m := p.taup_model | throw InitError.assertionError
      pure (some m, none, none)
  | some PickType.from_fk_metadata => do
      let some db := p.fk_database | throw InitError.assertionError
      pure (none, some db, none)
  | some PickType.from_sac_metadata => .ok (none, none, none)
  | some PickType.from_cap_weight_file => .error InitError.notImplementedError
  | some PickType.from_pick_file => do
      let some f := p.pick_file | throw InitError.keyError
      if ¬ existsFile f then throw InitError.assertionError
      pure (none, none, some f)

/-- Window-parameter validation block of `ProcessData.__init__`.  Returns the
`(window_length, padding_length)` attributes.  Note that
`self.window_length = parameters['window_length']` runs unconditionally, so a
missing `window_length` key raises `KeyError` even when `window_type` is
`None`. -/
def checkWindow (window_type : Option WindowType) (p : Params) :
    Except InitError (ℚ × ℚ) := do
  match window_type with
  | none =>
      -- warn('No window_type selected.')
      pure ()
  | some WindowType.cap_bw =>
      if p.window_length.isNone then throw InitError.assertionError
  | some WindowType.cap_sw =>
      if p.window_length.isNone then throw InitError.assertionError
  let some wl := p.window_length | throw InitError.keyError
  let pad := match p.padding_length with
    | some x => x
    | none => 0
  pure (wl, pad)

/-- Weight-parameter validation block of `ProcessData.__init__`.  Returns the
`(weights, scaling_power, scaling_distance)` attributes; `parse_weight_file`
is the external weight-table parser, a table mapping a station identifier to
its numeric columns.  The source tests for the key `"scaling power"` (with a
space, reachable only through a `**kwargs` dictionary) but then reads
`parameters['scaling_power']`, so an ordinary `scaling_power` keyword never
enters that branch and the default is used. -/
def checkWeight (weight_type : Option WeightType) (p : Params)
    (existsFile : String → Bool)
    (parseWeightFile : String → String → Option (Nat → ℚ)) :
    Except InitError
      (Option (String → Option (Nat → ℚ)) × Option ℚ × Option ℚ) :=
  match weight_type with
  | none => .ok (none, none, none)
  | some wt => do
      let some f := p.cap_weight_file | throw InitError.assertionError
      if ¬ existsFile f then throw InitError.assertionError
      let w := parseWeightFile f
      let sp ←
        if p.scaling_power_spaced.isSome then
          match p.scaling_power with
          | some v => pure v
          | none => throw InitError.keyError
        else
          pure (match wt with
            | WeightType.cap_bw => (1 : ℚ)
            | WeightType.cap_sw => 1 / 2)
      let sd := match p.scaling_distance with
        | some v => v
        | none => 100000
      pure (some w, some sp, some sd)

/-- Attributes stored on a successfully constructed `ProcessData` instance. -/
structure PDConfig where
  filter_type : Option FilterType
  freq_min : Option ℚ
  freq_max : Option ℚ
  freq : Option ℚ
  pick_type : Option PickType
  taup_model : Option String
  fk_database : Option String
  pick_file : Option String
  window_type : Option WindowType
  window_length : ℚ
  padding_length : ℚ
  weight_type : Option WeightType
  weights : Option (String → Option (Nat → ℚ))
  scaling_power : Option ℚ
  scaling_distance : Option ℚ

/-- Embeds `ProcessData.__init__`: the four validation blocks run in source
order (filter, pick, window, weight) and construction fails on the first
raised exception. -/
def ProcessData_init (filter_type : Option FilterType)
    (pick_type : Option PickType) (window_type : Option WindowType)
    (weight_type : Option WeightType) (p : Params)
    (existsFile : String → Bool)
    (parseWeightFile : String → String → Option (Nat → ℚ)) :
    Except InitError PDConfig := do
  let f3 ← checkFilter filter_type p
  let p3 ← checkPick pick_type p existsFile
  let w2 ← checkWindow window_type p
  let g3 ← checkWeight weight_type p existsFile parseWeightFile
  pure { filter_type := filter_type, freq_min := f3.1, freq_max := f3.2.1,
         freq := f3.2.2, pick_type := pick_type, taup_model := p3.1,
         fk_database := p3.2.1, pick_file := p3.2.2,
         window_type := window_type, window_length := w2.1,
         padding_length := w2.2, weight_type := weight_type,
         weights := g3.1, scaling_power := g3.2.1,
         scaling_distance := g3.2.2 }

/-- One seismic trace: its channel code (`trace.stats.channel`), sample array
(`trace.data`) and optional `weight` attribute.  Other stats fields play no
role in the embedded stages. -/
structure Trace where
  channel : String
  dataArr : List ℚ
  weight : Option ℚ
deriving DecidableEq

/-- A cached pick record (`AttribDict`): scalar P and S arrival times, each
absent until the strategy assigns it. -/
structure PickRec where
  P : Option ℚ
  S : Option ℚ
deriving DecidableEq

/-- The `self._picks` cache, keyed by station identifier. -/
def PickCache : Type := String → Option PickRec

/-- The `self._windows` cache, keyed by station identifier. -/
def WindowCache : Type := String → Option (ℚ × ℚ)

/-- Dictionary insertion (assignment `cache[k] = v`). -/
def cacheInsert {β : Type} (c : String → Option β) (k : String) (v : β) :
    String → Option β :=
  fun s => if s = k then some v else c s

/-- Part 1 of `ProcessData.__call__` (filter traces).  The per-trace
detrend/taper/filter sequences are external obspy routines, injected as one
trace transform per filter type.  Without a `filter_type` no filtering is
performed. -/
def part1_filter (filter_type : Option FilterType)
    (bandpassFn lowpassFn highpassFn : Trace → Trace)
    (traces : List Trace) : List Trace :=
  match filter_type with
  | some FilterType.Bandpass => traces.map bandpassFn
  | some FilterType.Lowpass => traces.map lowpassFn
  | some FilterType.Highpass => traces.map highpassFn
  | none => traces

/-- Part 2 of `ProcessData.__call__` (determine phase picks).  The externally
computed pick values for the current call (taup travel times, fk or sac
metadata reads) are injected; `fileRows` is the parsed content of the pick
file, one `(station id, P, S)` row per line.  `self._picks` is a
`defaultdict`, so `picks = self._picks[id]` creates an empty record for `id`
before the strategy fills it. -/
def part2_picks (pick_type : Option PickType)
    (taupPicks fkPicks sacPicks : PickRec)
    (fileRows : List (String × ℚ × ℚ))
    (cache : PickCache) (id : String) : Except CallError PickCache :=
  match pick_type with
  | none => .ok cache
  | some pt =>
      if (cache id).isSome then .ok cache
      else
        let cache := cacheInsert cache id { P := none, S := none }
        match pt with
        | PickType.from_taup_model => .ok (cacheInsert cache id taupPicks)
        | PickType.from_fk_metadata => .ok (cacheInsert cache id fkPicks)
        | PickType.from_sac_metadata => .ok (cacheInsert cache id sacPicks)
        | PickType.from_cap_weight_file => .error CallError.notImplementedError
        | PickType.from_pick_file =>
            .ok (fileRows.foldl
              (fun c row =>
                cacheInsert c row.1 { P := some row.2.1, S := some row.2.2 })
              cache)

/-- Part 3a of `ProcessData.__call__` (determine window start and end times).
The cap body-wave window starts `0.4*window_length` before the P pick, the
cap surface-wave window `0.3*window_length` before the S pick, both spanning
`window_length` and shifted by the origin time.  Reading a pick field the
strategy never assigned raises `AttributeError`.  The `defaultdict` access
`picks = self._picks[id]` creates an empty pick record if none exists.  (The
`taup_bw` branch of the source is unreachable: `__init__` rejects that
`window_type`.) -/
def part3a_windows (window_type : Option WindowType)
    (window_length origin_time : ℚ)
    (picksCache : PickCache) (wcache : WindowCache) (id : String) :
    Except CallError (PickCache × WindowCache) :=
  match window_type with
  | none => .ok (picksCache, wcache)
  | some wt =>
      if (wcache id).isSome then .ok (picksCache, wcache)
      else
        let picksCache :=
          if (picksCache id).isSome then picksCache
          else cacheInsert picksCache id { P := none, S := none }
        let picks := (picksCache id).getD { P := none, S := none }
        match wt with
        | WindowType.cap_bw =>
            match picks.P with
            | none => .error CallError.attributeError
            | some tP =>
                let t1 := tP - 2 / 5 * window_length
                let t2 := t1 + window_length
                .ok (picksCache,
                  cacheInsert wcache id (t1 + origin_time, t2 + origin_time))
        | WindowType.cap_sw =>
            match picks.S with
            | none => .error CallError.attributeError
            | some tS =>
                let t3 := tS - 3 / 10 * window_length
                let t4 := t3 + window_length
                .ok (picksCache,
                  cacheInsert wcache id (t3 + origin_time, t4 + origin_time))

/-- Part 3b of `ProcessData.__call__` (pad Green's functions): the cut
interval is the cached window, extended by `padding_length` on both ends
exactly when the bundle is tagged `type:greens`.  Returns `none` when no
`window_type` is configured (no interval is computed); `self._windows[id]`
on a missing key raises `KeyError`. -/
def part3b_padding (window_type : Option WindowType) (padding_length : ℚ)
    (isGreens : Bool) (wcache : WindowCache) (id : String) :
    Except CallError (Option (ℚ × ℚ)) :=
  match window_type with
  | none => .ok none
  | some _ =>
      match wcache id with
      | none => .error CallError.keyError
      | some w =>
          if isGreens then
            .ok (some (w.1 - padding_length, w.2 + padding_length))
          else
            .ok (some (w.1, w.2))

/-- Cut step of part 3c of `ProcessData.__call__`: every trace is cut to the
interval from part 3b when a `window_type` is configured, otherwise the
traces pass through.  `cut` is the external signal routine.  (The
unconditional edge taper that follows is a separate per-trace map and is not
needed by any claim.) -/
def part3c_cut (window_type : Option WindowType)
    (cutFn : ℚ → ℚ → Trace → Trace) (startEnd : Option (ℚ × ℚ))
    (traces : List Trace) : List Trace :=
  match window_type with
  | none => traces
  | some _ =>
      match startEnd with
      | none => traces
      | some se => traces.map (cutFn se.1 se.2)

/-- The component letter `trace.stats.channel[-1].upper()`.  Only evaluated by
the weighting loop after the `if trace.stats.channel:` guard, so the default
for an empty channel is never observed. -/
def componentOf (t : Trace) : Char :=
  ((t.channel.toList.getLast?).map Char.toUpper).getD ' '

/-- Weight resolution of the `cap_bw` loop body: stations absent from the
weight table resolve to 0; otherwise column 1 for the Z component, column 2
for the R component, and 0 for every other component. -/
def resolveBw (weights : String → Option (Nat → ℚ)) (id : String)
    (t : Trace) : ℚ :=
  let component := componentOf t
  match weights id with
  | none => 0
  | some row =>
      if component = 'Z' then row 1
      else if component = 'R' then row 2
      else 0

/-- Weight resolution of the `cap_sw` loop body: column 3 for Z, column 4 for
R, column 5 for T, and 0 otherwise or for stations absent from the table. -/
def resolveSw (weights : String → Option (Nat → ℚ)) (id : String)
    (t : Trace) : ℚ :=
  let component := componentOf t
  match weights id with
  | none => 0
  | some row =>
      if component = 'Z' then row 3
      else if component = 'R' then row 4
      else if component = 'T' then row 5
      else 0

/-- The removal/weight-assignment loop of part 4, with the CPython semantics
of calling `traces.remove(trace)` while iterating `for trace in traces`:
removing the element at the current index shifts its successor into that
index, and the loop's index increment then skips that successor, which is
kept without being examined.  Traces are assumed pairwise distinct (one trace
per channel), matching `list.remove`'s deletion of the first equal element.
A trace with an empty channel code fails the `if trace.stats.channel:` guard
and is kept untouched; a nonzero (also negative) resolved weight is truthy
and is assigned to the trace, a zero weight removes it. -/
def capTraceLoop (resolve : Trace → ℚ) : List Trace → List Trace
  | [] => []
  | t :: rest =>
      if t.channel.isEmpty then t :: capTraceLoop resolve rest
      else
        let w := resolve t
        if w ≠ 0 then { t with weight := some w } :: capTraceLoop resolve rest
        else
          match rest with
          | [] => []
          | u :: rest2 => u :: capTraceLoop resolve rest2

/-- Part 4 of `ProcessData.__call__` (determine weights).  Without a
`weight_type` every trace gets weight 1.  With `cap_bw` or `cap_sw` the
removal/weight loop runs unless the bundle is tagged `type:greens` (the loop
body breaks immediately on that tag), and then a second loop scales every
remaining trace's samples by `(distance_in_m/scaling_distance)**
scaling_power` — represented by the injected `scaleFactor`, since the source
computes it in floating point — followed by the source's ad hoc factor of
exactly 1. -/
def part4_weights (weight_type : Option WeightType)
    (weights : String → Option (Nat → ℚ)) (id : String)
    (isGreens : Bool) (scaleFactor : ℚ) (traces : List Trace) : List Trace :=
  match weight_type with
  | none =>
      traces.map fun t => { t with weight := some 1 }
  | some WeightType.cap_bw =>
      let traces :=
        if isGreens then traces else capTraceLoop (resolveBw weights id) traces
      traces.map fun t =>
        { t with dataArr := t.dataArr.map fun x => x * scaleFactor * 1 }
  | some WeightType.cap_sw =>
      let traces :=
        if isGreens then traces else capTraceLoop (resolveSw weights id) traces
      traces.map fun t =>
        { t with dataArr := t.dataArr.map fun x => x * scaleFactor * 1 }

/-! ## Concrete instances used to settle individual claims -/

/-- Trivial Green's-function selection over unit types. -/
def trivialSelect : Unit → Unit → Unit := fun g _ => g

/-- A pure misfit function whose column depends on the length of the source
grid it is given: every entry equals `len(sources)`.  It satisfies the
documented shape contract (a `(len(sources), 1)` column). -/
def misfitLengthDependent : Unit → Unit → List Nat → ProgressCallback → List Nat :=
  fun _ _ srcs _ => List.replicate srcs.length srcs.length

/-- A pure misfit function that evaluates each source independently. -/
def pointMisfit : Unit → Unit → List Nat → ProgressCallback → List Nat :=
  fun _ _ srcs _ => srcs.map fun s => s + 1

/-- A weight table holding one station `"STA"` whose every column is 1, so
its Z and R (and sw T) weights are all positive. -/
def weightTableZR1 : String → Option (Nat → ℚ) :=
  fun s => if s = "STA" then some (fun _ => 1) else none

/-- Constructor keywords `window_length=15, cap_weight_file="weights.dat",
scaling_power=2`. -/
def paramsScaling2 : Params :=
  { emptyParams with window_length := some 15,
                     cap_weight_file := some "weights.dat",
                     scaling_power := some 2 }

/-! ## Helper lemmas -/

/-- Unfolding equation for `npConcat` on a list of at least two matrices. -/
theorem npConcat_cons_cons {α : Type} (m m2 : List (List α))
    (rest : List (List (List α))) :
    npConcat (m :: m2 :: rest) =
      List.zipWith (fun c d => c ++ d) m (npConcat (m2 :: rest)) := rfl

/-- The serial evaluator loop produces one column per origin. -/
theorem gridSearchSerialFrom_length {Data G Origin Src α : Type}
    (select : G → Origin → G) (data : Data) (greens : G)
    (misfit : Data → G → List Src → ProgressCallback → List α)
    (sources : List Src) (ni nj msg : Nat) :
    ∀ (i : Nat) (os : List Origin),
      (gridSearchSerialFrom select data greens misfit sources ni nj msg
        i os).length = os.length := by
  intro i os
  induction os generalizing i with
  | nil => rfl
  | cons o os ih => simp [gridSearchSerialFrom, ih]

/-- Indexing into the serial evaluator loop: the k-th column is the misfit of
the k-th remaining origin, with global start index `(i+k)*nj`. -/
theorem gridSearchSerialFrom_getElem {Data G Origin Src α : Type}
    (select : G → Origin → G) (data : Data) (greens : G)
    (misfit : Data → G → List Src → ProgressCallback → List α)
    (sources : List Src) (ni nj msg : Nat) :
    ∀ (i k : Nat) (os : List Origin),
      (gridSearchSerialFrom select data greens misfit sources ni nj msg
          i os)[k]? =
        (os[k]?).map fun o =>
          misfit data (select greens o) sources
            { start := (i + k) * nj, stop := ni * nj, percent := msg } := by
  intro i k os
  induction os generalizing i k with
  | nil => simp [gridSearchSerialFrom]
  | cons o os ih =>
      cases k with
      | zero => simp [gridSearchSerialFrom]
      | succ k =>
          simp only [gridSearchSerialFrom, List.getElem?_cons_succ]
          rw [ih]
          have harith : i + 1 + k = i + (k + 1) := by omega
          rw [harith]

/-- A misfit that is a pointwise map over the source grid turns the serial
evaluator into a nested map over origins and sources. -/
theorem grid_search_serial_pointwise {Data G Origin Src α : Type}
    (select : G → Origin → G) (data : Data) (greens : G)
    (misfit : Data → G → List Src → ProgressCallback → List α)
    (f : Data → G → Src → α)
    (hpt : ∀ d g srcs h, misfit d g srcs h = srcs.map (f d g))
    (origins : List Origin) (sources : List Src) (msg : Nat) :
    grid_search_serial select data greens misfit origins sources msg =
      origins.map fun o => sources.map (f data (select greens o)) := by
  unfold grid_search_serial
  generalize 0 = i
  generalize origins.length = ni
  induction origins generalizing i with
  | nil => rfl
  | cons o os ih => simp [gridSearchSerialFrom, hpt, ih]

/-- Zipping two per-origin column families with append merges them
columnwise. -/
theorem zipWith_append_map_cols {Origin α : Type} (g h : Origin → List α) :
    ∀ os : List Origin,
      List.zipWith (fun c d => c ++ d) (os.map g) (os.map h) =
        os.map fun o => g o ++ h o := by
  intro os
  induction os with
  | nil => rfl
  | cons o os ih => simp [ih]

/-- Source-axis concatenation of per-partition column families equals the
column family of the concatenated partition. -/
theorem npConcat_map_cols {Origin Src α : Type} (origins : List Origin)
    (g : Origin → Src → α) :
    ∀ parts : List (List Src), parts ≠ [] →
      npConcat (parts.map fun p => origins.map fun o => p.map (g o)) =
        origins.map fun o => parts.flatten.map (g o) := by
  intro parts
  induction parts with
  | nil => intro h; exact absurd rfl h
  | cons p rest ih =>
      intro _
      cases rest with
      | nil => simp [npConcat]
      | cons q rest2 =>
          have ih2 := ih (by simp)
          simp only [List.map_cons] at ih2 ⊢
          rw [npConcat_cons_cons, ih2, zipWith_append_map_cols]
          simp

/-! ## Claims -/

/-- C1, counterexample: a misfit that is a pure function of its inputs but
whose column depends on the length of the source grid it receives breaks
gather-consistency.  With the source grid `[0, 1]` partitioned into `[[0],
[1]]` (a rank-order partition, as the second conjunct checks), concatenating
the per-partition serial results along the source axis yields `[[1, 1]]`
while the unpartitioned serial result is `[[2, 2]]`. -/
theorem c1_gather_counterexample :
    npConcat
        [grid_search_serial trivialSelect () () misfitLengthDependent [()] [0] 25,
         grid_search_serial trivialSelect () () misfitLengthDependent [()] [1] 25] ≠
      grid_search_serial trivialSelect () () misfitLengthDependent [()] [0, 1] 25 ∧
    ([[0], [1]] : List (List Nat)).flatten = [0, 1] := by decide

/-- C1 (amended): for every source grid, every partition whose rank-order
concatenation equals the grid, and every misfit function that computes each
source's value independently of the rest of the grid (a pointwise map over
the source grid), concatenating the per-partition serial-evaluator outputs
along the source axis equals the serial evaluator's output on the whole
grid, with the same data, greens and origins. -/
theorem c1_gather_pointwise {Data G Origin Src α : Type}
    (select : G → Origin → G) (data : Data) (greens : G)
    (misfit : Data → G → List Src → ProgressCallback → List α)
    (f : Data → G → Src → α)
    (hpt : ∀ d g srcs h, misfit d g srcs h = srcs.map (f d g))
    (origins : List Origin) (parts : List (List Src)) (sources : List Src)
    (hjoin : parts.flatten = sources) (hne : parts ≠ []) (msg : Nat) :
    npConcat (parts.map fun p =>
        grid_search_serial select data greens misfit origins p msg) =
      grid_search_serial select data greens misfit origins sources msg := by
  subst hjoin
  have hser : ∀ p : List Src,
      grid_search_serial select data greens misfit origins p msg =
        origins.map fun o => p.map (f data (select greens o)) := fun p =>
    grid_search_serial_pointwise select data greens misfit f hpt origins p msg
  calc
    npConcat (parts.map fun p =>
        grid_search_serial select data greens misfit origins p msg) =
        npConcat (parts.map fun p =>
          origins.map fun o => p.map (f data (select greens o))) := by
          simp only [hser]
    _ = origins.map fun o =>
          parts.flatten.map (f data (select greens o)) :=
        npConcat_map_cols origins (fun o => f data (select greens o)) parts hne
    _ = grid_search_serial select data greens misfit origins parts.flatten
          msg := (hser _).symm

/-- C1, witness for the amended theorem at the grid `[10, 20, 30]`
partitioned into `[[10], [20, 30]]` with a pointwise misfit. -/
theorem c1_gather_pointwise_witness :
    npConcat ([[10], [20, 30]].map fun p =>
        grid_search_serial trivialSelect () () pointMisfit [()] p 25) =
      grid_search_serial trivialSelect () () pointMisfit [()] [10, 20, 30] 25 :=
  c1_gather_pointwise trivialSelect () () pointMisfit (fun _ _ s => s + 1)
    (fun _ _ _ _ => rfl) [()] [[10], [20, 30]] [10, 20, 30] rfl (by simp) 25

/-- C3: with no active MPI runtime, `grid_search` returns exactly the value
of `_grid_search_serial` on the same arguments, for both values of
`allgather`; and in particular a call with a 7-element source grid and 1
origin whose misfit returns a `(7, 1)` column returns a matrix of shape
`(7, 1)`. -/
theorem c3_serial_fallback {Data G Origin Src α : Type} :
    (∀ (select : G → Origin → G) (data : Data) (greens : G)
        (misfit : Data → G → List Src → ProgressCallback → List α)
        (origins : List Origin) (sources : List Src) (msg : Nat)
        (allgather : Bool),
        grid_search none select data greens misfit origins sources msg
            allgather =
          grid_search_serial select data greens misfit origins sources msg) ∧
    (∀ (select : G → Origin → G) (data : Data) (greens : G)
        (misfit : Data → G → List Src → ProgressCallback → List α)
        (origins : List Origin) (sources : List Src) (msg : Nat)
        (allgather : Bool),
        sources.length = 7 → origins.length = 1 →
        (∀ g h, (misfit data g sources h).length = 7) →
        matShape (grid_search none select data greens misfit origins sources
          msg allgather) = (7, 1)) := by
  constructor
  · intro select data greens misfit origins sources msg allgather
    rfl
  · intro select data greens misfit origins sources msg allgather h7 h1 hcol
    cases origins with
    | nil => simp at h1
    | cons o os =>
        cases os with
        | nil =>
            simp [grid_search, grid_search_serial, gridSearchSerialFrom,
              matShape, hcol]
        | cons o2 os2 => simp at h1

/-- C3, witness at the benchmark scenario: 7 sources, 1 origin, pointwise
misfit returning a length-7 column. -/
theorem c3_serial_fallback_witness :
    grid_search none trivialSelect () () pointMisfit [()]
        [0, 1, 2, 3, 4, 5, 6] 25 true =
      grid_search_serial trivialSelect () () pointMisfit [()]
        [0, 1, 2, 3, 4, 5, 6] 25 ∧
    matShape (grid_search none trivialSelect () () pointMisfit [()]
        [0, 1, 2, 3, 4, 5, 6] 25 true) = (7, 1) :=
  ⟨c3_serial_fallback.1 trivialSelect () () pointMisfit [()]
      [0, 1, 2, 3, 4, 5, 6] 25 true,
   c3_serial_fallback.2 trivialSelect () () pointMisfit [()]
      [0, 1, 2, 3, 4, 5, 6] 25 true rfl rfl (fun _g _h => rfl)⟩

/-- C4: for every origin list and source grid, if the misfit callable returns
a column of length `len(sources)` on each call, the serial evaluator returns
one column per origin (shape `(len(sources), len(origins))`), and the i-th
column is the misfit applied to the data, the Green's-function subset
selected for the i-th origin, the full source grid and the progress reporter
built from the global indices — origins visited in input order. -/
theorem c4_serial_columns {Data G Origin Src α : Type}
    (select : G → Origin → G) (data : Data) (greens : G)
    (misfit : Data → G → List Src → ProgressCallback → List α)
    (origins : List Origin) (sources : List Src) (msg : Nat)
    (hn : 1 ≤ origins.length)
    (hcol : ∀ g h, (misfit data g sources h).length = sources.length) :
    (grid_search_serial select data greens misfit origins sources
        msg).length = origins.length ∧
    (∀ (i : Nat) (o : Origin), origins[i]? = some o →
        (grid_search_serial select data greens misfit origins sources
            msg)[i]? =
          some (misfit data (select greens o) sources
            { start := i * sources.length,
              stop := origins.length * sources.length, percent := msg })) ∧
    (∀ (i : Nat) (c : List α),
        (grid_search_serial select data greens misfit origins sources
            msg)[i]? = some c →
        c.length = sources.length) := by
  refine ⟨?_, ?_, ?_⟩
  · exact gridSearchSerialFrom_length select data greens misfit sources
      origins.length sources.length msg 0 origins
  · intro i o ho
    unfold grid_search_serial
    rw [gridSearchSerialFrom_getElem, ho]
    simp
  · intro i c hc
    unfold grid_search_serial at hc
    rw [gridSearchSerialFrom_getElem] at hc
    cases ho : origins[i]? with
    | none => rw [ho] at hc; simp at hc
    | some o =>
        rw [ho] at hc
        simp only [Option.map_some', Option.some.injEq] at hc
        rw [← hc]
        exact hcol _ _

/-- C4, witness: one origin and two sources with a pointwise misfit; the
column at index 0 carries the global progress indices (0, 2). -/
theorem c4_serial_columns_witness :
    (grid_search_serial trivialSelect () () pointMisfit [()] [0, 1] 25)[0]? =
      some (pointMisfit () (trivialSelect () ()) [0, 1]
        { start := 0, stop := 2, percent := 25 }) :=
  (c4_serial_columns trivialSelect () () pointMisfit [()] [0, 1] 25
      (by decide) (fun _g _h => rfl)).2.1 0 () rfl

/-- C2: for a processor configured with a pick_type and a window_type, once
the pick and window caches hold records for a station identifier, a call on
any later bundle with that identifier — whatever pick values its data would
produce (`taupPicks`, `fkPicks`, `sacPicks` are arbitrary) — leaves both
caches unchanged, and the cut interval of part 3b is read from the cached
window record. -/
theorem c2_cache_reuse (pt : PickType) (wt : WindowType)
    (taupPicks fkPicks sacPicks : PickRec)
    (fileRows : List (String × ℚ × ℚ)) (L t0 pad : ℚ) (isGreens : Bool)
    (pcache : PickCache) (wcache : WindowCache) (id : String)
    (hp : (pcache id).isSome) (hw : (wcache id).isSome) :
    part2_picks (some pt) taupPicks fkPicks sacPicks fileRows pcache id =
      .ok pcache ∧
    part3a_windows (some wt) L t0 pcache wcache id = .ok (pcache, wcache) ∧
    part3b_padding (some wt) pad isGreens wcache id =
      .ok ((wcache id).map fun w =>
        if isGreens then (w.1 - pad, w.2 + pad) else (w.1, w.2)) := by
  refine ⟨?_, ?_, ?_⟩
  · simp [part2_picks, hp]
  · simp [part3a_windows, hw]
  · cases hcase : wcache id with
    | none => rw [hcase] at hw; simp at hw
    | some w => cases isGreens <;> simp [part3b_padding, hcase]

/-- C2, witness: a cache state holding a pick and a window record for
station `"A"`; a later call with arbitrary freshly computed pick values
changes nothing. -/
theorem c2_cache_reuse_witness :
    (((fun s => if s = "A" then some { P := some 1, S := some 2 } else none :
        PickCache)) "A").isSome ∧
    part2_picks (some PickType.from_taup_model)
        { P := some 7, S := some 8 } { P := none, S := none }
        { P := none, S := none } []
        (fun s => if s = "A" then some { P := some 1, S := some 2 } else none)
        "A" =
      .ok (fun s =>
        if s = "A" then some { P := some 1, S := some 2 } else none) ∧
    part3a_windows (some WindowType.cap_bw) 15 0
        (fun s => if s = "A" then some { P := some 1, S := some 2 } else none)
        (fun s => if s = "A" then some ((0 : ℚ), (15 : ℚ)) else none) "A" =
      .ok (fun s => if s = "A" then some { P := some 1, S := some 2 } else none,
        fun s => if s = "A" then some ((0 : ℚ), (15 : ℚ)) else none) :=
  ⟨by decide,
   (c2_cache_reuse PickType.from_taup_model WindowType.cap_bw
      { P := some 7, S := some 8 } { P := none, S := none }
      { P := none, S := none } [] 15 0 0 false
      (fun s => if s = "A" then some { P := some 1, S := some 2 } else none)
      (fun s => if s = "A" then some ((0 : ℚ), (15 : ℚ)) else none) "A"
      (by decide) (by decide)).1,
   (c2_cache_reuse PickType.from_taup_model WindowType.cap_bw
      { P := some 7, S := some 8 } { P := none, S := none }
      { P := none, S := none } [] 15 0 0 false
      (fun s => if s = "A" then some { P := some 1, S := some 2 } else none)
      (fun s => if s = "A" then some ((0 : ℚ), (15 : ℚ)) else none) "A"
      (by decide) (by decide)).2.1⟩

/-- C5, counterexample: a Green's-function bundle is NOT left unchanged by
the `cap_bw` weighting stage — the scaling loop has no greens guard, so the
single trace's samples are multiplied by the scale factor
`(distance/scaling_distance)**scaling_power` (here 2, e.g. distance 2e5,
scaling_distance 1e5, scaling_power 1). -/
theorem c5_greens_unchanged_counterexample :
    part4_weights (some WeightType.cap_bw) (fun _ => none) "STA" true 2
        [{ channel := "BHZ", dataArr := [1], weight := none }] ≠
      [{ channel := "BHZ", dataArr := [1], weight := none }] := by
  norm_num [part4_weights]

/-- C5 (amended): for every bundle tagged `type:greens` processed with
weight_type `cap_bw` or `cap_sw`, the weighting stage removes no trace and
assigns no weight attribute (the removal/weight loop breaks immediately),
but every trace's samples ARE scaled by the factor
`(distance/scaling_distance)**scaling_power` (and the ad hoc factor 1). -/
theorem c5_greens_no_removal_but_scaled (wt : WeightType)
    (weights : String → Option (Nat → ℚ)) (id : String) (scaleFactor : ℚ)
    (traces : List Trace) :
    part4_weights (some wt) weights id true scaleFactor traces =
      traces.map fun t =>
        { t with dataArr := t.dataArr.map fun x => x * scaleFactor * 1 } := by
  cases wt <;> rfl

/-- C6, code-bug evidence: with `cap_bw` weighting and the station present in
the weight table (Z and R weights 1), a bundle whose first two traces are
both transverse (resolved weight exactly 0) loses only the first of them.
`traces.remove(trace)` inside `for trace in traces` shifts the second
zero-weight trace into the removed trace's index, and the loop skips it: it
survives in the output, unexamined and without a weight attribute, while the
claim requires every zero-weight trace removed and every retained trace to
carry its weight. -/
theorem c6_zero_weight_removal_bug :
    part4_weights (some WeightType.cap_bw) weightTableZR1 "STA" false 1
        [{ channel := "BHT", dataArr := [1], weight := none },
         { channel := "SHT", dataArr := [1], weight := none },
         { channel := "BHZ", dataArr := [1], weight := none }] =
      [{ channel := "SHT", dataArr := [1], weight := none },
       { channel := "BHZ", dataArr := [1], weight := some 1 }] := by
  norm_num [part4_weights, capTraceLoop, resolveBw, componentOf,
    weightTableZR1]
  decide

/-- C7, counterexample: constructing with every axis set to `None` and no
per-axis parameters does not succeed — the pick-parameter block raises a
bare `Exception` for `pick_type=None`. -/
theorem c7_all_axes_none_counterexample :
    ProcessData_init none none none none emptyParams (fun _ => true)
        (fun _ _ => none) = .error InitError.exceptionError := rfl

/-- C7 (amended): with `filter_type=None` the filter block accepts and the
filtering stage is skipped; with `weight_type=None` the weight block accepts
and the weighting stage assigns uniform weight 1 to every trace (rather than
being a strict no-op); `pick_type=None` raises at construction; and
`window_type=None` without a `window_length` keyword raises a missing-key
error at construction (the unconditional `parameters['window_length']`
read), while the cut step is skipped whenever `window_type` is `None`. -/
theorem c7_none_axes_amended (p : Params) (existsFile : String → Bool)
    (parseWF : String → String → Option (Nat → ℚ))
    (bandFn lowFn highFn : Trace → Trace) (cutFn : ℚ → ℚ → Trace → Trace)
    (startEnd : Option (ℚ × ℚ)) (weights : String → Option (Nat → ℚ))
    (id : String) (isGreens : Bool) (scaleFactor : ℚ) (traces : List Trace)
    (hwl : p.window_length = none) :
    checkFilter none p = .ok (none, none, none) ∧
    part1_filter none bandFn lowFn highFn traces = traces ∧
    checkPick none p existsFile = .error InitError.exceptionError ∧
    checkWindow none p = .error InitError.keyError ∧
    part3c_cut none cutFn startEnd traces = traces ∧
    checkWeight none p existsFile parseWF = .ok (none, none, none) ∧
    part4_weights none weights id isGreens scaleFactor traces =
      traces.map (fun t => { t with weight := some 1 }) :=
  ⟨rfl, rfl, rfl, by simp only [checkWindow, hwl]; rfl, rfl, rfl, rfl⟩

/-- C7, witness for the amended statement at the empty parameter
dictionary. -/
theorem c7_none_axes_amended_witness :
    emptyParams.window_length = none ∧
    checkFilter none emptyParams = .ok (none, none, none) ∧
    checkWindow none emptyParams = .error InitError.keyError ∧
    checkWeight none emptyParams (fun _ => true) (fun _ _ => none) =
      .ok (none, none, none) :=
  have h := c7_none_axes_amended emptyParams (fun _ => true) (fun _ _ => none)
    id id id (fun _ _ => id) none (fun _ => none) "A" false 1 [] rfl
  ⟨rfl, h.1, h.2.2.2.1, h.2.2.2.2.2.1⟩

/-- C8, code-bug evidence: constructing with an explicit `scaling_power=2`
keyword stores the default exponent, not 2 — the source tests for the key
`"scaling power"` (with a space) but reads `parameters['scaling_power']`, so
the supplied keyword is silently ignored: `cap_bw` stores 1 and `cap_sw`
stores 1/2 (the defaults the claim describes for the omitted case). -/
theorem c8_scaling_power_ignored :
    ((ProcessData_init none (some PickType.from_sac_metadata)
          (some WindowType.cap_bw) (some WeightType.cap_bw) paramsScaling2
          (fun _ => true) (fun _ _ => none)).map fun c => c.scaling_power) =
      .ok (some 1) ∧
    ((ProcessData_init none (some PickType.from_sac_metadata)
          (some WindowType.cap_sw) (some WeightType.cap_sw) paramsScaling2
          (fun _ => true) (fun _ _ => none)).map fun c => c.scaling_power) =
      .ok (some (1 / 2)) ∧
    paramsScaling2.scaling_power = some 2 ∧ (1 : ℚ) ≠ 2 := by
  refine ⟨rfl, rfl, rfl, by norm_num⟩

/-- C9, counterexample: selecting the recognized-but-unimplemented strategy
`pick_type='from_cap_weight_file'` makes construction itself fail with
`NotImplementedError`; construction does not succeed. -/
theorem c9_construction_raises_counterexample :
    ProcessData_init none (some PickType.from_cap_weight_file)
        (some WindowType.cap_bw) none
        { emptyParams with window_length := some 15 } (fun _ => true)
        (fun _ _ => none) = .error InitError.notImplementedError := rfl

/-- C9 (amended): the unimplemented-strategy error for
`pick_type='from_cap_weight_file'` is raised at construction time (for every
choice of the remaining axes and parameters, given a valid filter axis), not
on first use; the matching raise in the call's pick stage (source lines
342-343) is therefore unreachable, as the part-2 evaluation on an uncached
identifier shows. -/
theorem c9_unimplemented_raised_at_construction
    (window_type : Option WindowType) (weight_type : Option WeightType)
    (p : Params) (existsFile : String → Bool)
    (parseWF : String → String → Option (Nat → ℚ))
    (taupPicks fkPicks sacPicks : PickRec)
    (fileRows : List (String × ℚ × ℚ)) (id : String) :
    ProcessData_init none (some PickType.from_cap_weight_file) window_type
        weight_type p existsFile parseWF =
      .error InitError.notImplementedError ∧
    part2_picks (some PickType.from_cap_weight_file) taupPicks fkPicks
        sacPicks fileRows (fun _ => none) id =
      .error CallError.notImplementedError :=
  ⟨rfl, rfl⟩

/-- C10: under `cap_bw` weighting, a trace whose channel code's last
character (uppercased) is neither `Z` nor `R` resolves to weight exactly 0,
whatever the weight table holds for its station identifier, and the
removal/weight loop removes it when it examines it (shown on the singleton
bundle). -/
theorem c10_bw_non_zr_zero_weight (weights : String → Option (Nat → ℚ))
    (id : String) (t : Trace) (hne : ¬ t.channel.isEmpty)
    (hZ : componentOf t ≠ 'Z') (hR : componentOf t ≠ 'R') :
    resolveBw weights id t = 0 ∧
    capTraceLoop (resolveBw weights id) [t] = [] := by
  have h0 : resolveBw weights id t = 0 := by
    unfold resolveBw
    cases weights id with
    | none => rfl
    | some row => simp [hZ, hR]
  refine ⟨h0, ?_⟩
  unfold capTraceLoop
  simp [hne, h0]

/-- C10, witness: a transverse trace `BHT` at a station whose weight-table
row is everywhere 9 still resolves to weight 0 and is removed. -/
theorem c10_bw_non_zr_zero_weight_witness :
    resolveBw (fun _ => some fun _ => 9) "STA"
        { channel := "BHT", dataArr := [1], weight := none } = 0 ∧
    capTraceLoop (resolveBw (fun _ => some fun _ => 9) "STA")
        [{ channel := "BHT", dataArr := [1], weight := none }] = [] :=
  c10_bw_non_zr_zero_weight (fun _ => some fun _ => 9) "STA"
    { channel := "BHT", dataArr := [1], weight := none }
    (by decide) (by decide) (by decide)

end Mtuq
